import Mathlib

/-!
# Verification of the OSRS Wilderness death-hotspot visualizer

Shallow embedding of the core logic of `src/src/App.jsx`:

* the fixed `HOTSPOTS` table,
* the sample generator `generateDeathData` (random points clustered around
  hotspots, clamped into the 800x800 normalized space),
* the canvas renderer `drawMap` (image-load success and failure paths),
* the resize handler `handleResize`.

JavaScript numbers are modelled as rationals.  `Math.random()` is modelled
as a stream `rand : Nat → ℚ` of draws consumed in program order, with an
explicit cursor.  The transcendental primitives `Math.cos`, `Math.sin`,
`Math.sqrt` and the constant `Math.PI` are abstracted into a `MathPrims`
record of rational-valued functions, since none of the verified properties
depend on their values.  The 2D canvas is modelled as its dimensions plus
the list of drawing operations issued since the last `clearRect`.
-/

/-- A hotspot record, as in the `HOTSPOTS` table of `App.jsx`
(`{ x, y, radius, density, name }`). -/
structure Hotspot where
  x : ℚ
  y : ℚ
  radius : ℚ
  density : ℚ
  name : String
deriving DecidableEq

/-- The fixed hotspot table (`App.jsx` lines 8-19). -/
def HOTSPOTS : List Hotspot :=
  [ ⟨150, 700, 80, 4/10, "Edgeville Wilderness (Lvl 1-5)"⟩,
    ⟨650, 150, 70, 3/10, "Chaos Altar / Temple"⟩,
    ⟨400, 400, 90, 5/10, "Revenant Caves Entrance"⟩,
    ⟨600, 550, 60, 25/100, "Wilderness Slayer/Lava Dragons"⟩,
    ⟨400, 100, 100, 35/100, "Deep Wilderness Bosses"⟩ ]

/-- A generated death sample `{ x, y }`. -/
structure Death where
  x : ℚ
  y : ℚ
deriving DecidableEq

/-- Abstraction of the transcendental `Math` primitives used by the
generator (`Math.cos`, `Math.sin`, `Math.sqrt`, `Math.PI`). -/
structure MathPrims where
  cos : ℚ → ℚ
  sin : ℚ → ℚ
  sqrt : ℚ → ℚ
  pi : ℚ

/-- `Math.max(0, Math.min(m, v))` — the post-generation clamp
(`App.jsx` lines 48-49). -/
def clampCoord (m v : ℚ) : ℚ := max 0 (min m v)

/-- Dummy hotspot standing for the out-of-range JavaScript array access
(never reached when the random draws lie in `[0,1)`). -/
def defaultHotspot : Hotspot := ⟨0, 0, 0, 0, ""⟩

/-- One iteration of the generator loop body (`App.jsx` lines 28-51),
reading the draws `rand k, rand (k+1), ...` in program order:
`rand k` is `hotspotChance`; on the hotspot branch `rand (k+1)` picks the
hotspot index, `rand (k+2)` the angle and `rand (k+3)` the radial
fraction; on the uniform branch `rand (k+1)` and `rand (k+2)` give `x`
and `y`. -/
def genOneWith (table : List Hotspot) (M : MathPrims) (rand : ℕ → ℚ)
    (k : ℕ) : Death :=
  let hotspotChance := rand k
  if hotspotChance < 8/10 then
    let hotspotIndex := (⌊rand (k + 1) * (table.length : ℚ)⌋).toNat
    let chosenHotspot := table.getD hotspotIndex defaultHotspot
    let angle := rand (k + 2) * 2 * M.pi
    let r := chosenHotspot.radius * M.sqrt (rand (k + 3))
    let x := chosenHotspot.x + r * M.cos angle
    let y := chosenHotspot.y + r * M.sin angle
    ⟨clampCoord 800 x, clampCoord 800 y⟩
  else
    let x := rand (k + 1) * 800
    let y := rand (k + 2) * 800
    ⟨clampCoord 800 x, clampCoord 800 y⟩

/-- Number of `Math.random()` calls one loop iteration consumes:
4 on the hotspot branch, 3 on the uniform branch. -/
def drawsUsed (rand : ℕ → ℚ) (k : ℕ) : ℕ :=
  if rand k < 8/10 then 4 else 3

/-- The generator loop (`App.jsx` lines 27-52): `k` is the cursor into
the random stream, the second argument the number of iterations left. -/
def genLoopWith (table : List Hotspot) (M : MathPrims) (rand : ℕ → ℚ) :
    ℕ → ℕ → List Death
  | _, 0 => []
  | k, Nat.succ n =>
      genOneWith table M rand k ::
        genLoopWith table M rand (k + drawsUsed rand k) n

/-- `generateDeathData` parametrized by the hotspot table it closes
over. -/
def generateDeathDataWith (table : List Hotspot) (M : MathPrims)
    (rand : ℕ → ℚ) (numDeaths : ℕ) : List Death :=
  genLoopWith table M rand 0 numDeaths

/-- `generateDeathData` (`App.jsx` lines 22-54), over the fixed
`HOTSPOTS` table. -/
def generateDeathData (M : MathPrims) (rand : ℕ → ℚ)
    (numDeaths : ℕ) : List Death :=
  generateDeathDataWith HOTSPOTS M rand numDeaths

/-- C1 helper: the clamp lands in `[0, m]` whenever `0 ≤ m`. -/
theorem clampCoord_mem (m v : ℚ) (hm : 0 ≤ m) :
    0 ≤ clampCoord m v ∧ clampCoord m v ≤ m := by
  constructor
  · exact le_max_left 0 _
  · exact max_le hm (min_le_left _ _)

/-- C1 helper: each loop iteration produces a clamped sample. -/
theorem genOneWith_bounds (table : List Hotspot) (M : MathPrims)
    (rand : ℕ → ℚ) (k : ℕ) :
    0 ≤ (genOneWith table M rand k).x ∧ (genOneWith table M rand k).x ≤ 800 ∧
    0 ≤ (genOneWith table M rand k).y ∧ (genOneWith table M rand k).y ≤ 800 := by
  unfold genOneWith
  by_cases h : rand k < 8/10 <;> simp [h] <;>
    exact ⟨(clampCoord_mem 800 _ (by norm_num)).1,
           (clampCoord_mem 800 _ (by norm_num)).2,
           (clampCoord_mem 800 _ (by norm_num)).1,
           (clampCoord_mem 800 _ (by norm_num)).2⟩

/-- C1 helper: the loop produces exactly as many samples as requested. -/
theorem genLoopWith_length (table : List Hotspot) (M : MathPrims)
    (rand : ℕ → ℚ) : ∀ (n k : ℕ), (genLoopWith table M rand k n).length = n := by
  intro n
  induction n with
  | zero => intro k; rfl
  | succ n ih => intro k; simp [genLoopWith, ih]

/-- C1 helper: every sample the loop produces is in bounds. -/
theorem genLoopWith_bounds (table : List Hotspot) (M : MathPrims)
    (rand : ℕ → ℚ) : ∀ (n k : ℕ), ∀ d ∈ genLoopWith table M rand k n,
    0 ≤ d.x ∧ d.x ≤ 800 ∧ 0 ≤ d.y ∧ d.y ≤ 800 := by
  intro n
  induction n with
  | zero => intro k d hd; simp [genLoopWith] at hd
  | succ n ih =>
      intro k d hd
      simp only [genLoopWith, List.mem_cons] at hd
      rcases hd with rfl | hd
      · exact genOneWith_bounds table M rand k
      · exact ih _ d hd

/-- C1: for every `count ≥ 0`, `generateDeathData` returns an ordered
sequence of exactly `count` samples, every sample satisfies
`0 ≤ x ≤ 800` and `0 ≤ y ≤ 800`, and `count = 0` yields the empty
sequence. -/
theorem generateDeathData_count_and_bounds (M : MathPrims)
    (rand : ℕ → ℚ) (count : ℕ) :
    (generateDeathData M rand count).length = count ∧
    (∀ d ∈ generateDeathData M rand count,
      0 ≤ d.x ∧ d.x ≤ 800 ∧ 0 ≤ d.y ∧ d.y ≤ 800) ∧
    generateDeathData M rand 0 = [] := by
  refine ⟨genLoopWith_length HOTSPOTS M rand count 0, ?_, rfl⟩
  exact genLoopWith_bounds HOTSPOTS M rand count 0

/-- C9: the fixed hotspot table has exactly five entries, each with
center in `[0,800] × [0,800]`, positive radius, density in `(0,1]` and a
non-empty name.  (`HOTSPOTS` is a pure constant of the embedding, so no
operation can modify it.) -/
theorem HOTSPOTS_invariants :
    HOTSPOTS.length = 5 ∧
    ∀ hs ∈ HOTSPOTS,
      0 ≤ hs.x ∧ hs.x ≤ 800 ∧ 0 ≤ hs.y ∧ hs.y ≤ 800 ∧
      0 < hs.radius ∧ 0 < hs.density ∧ hs.density ≤ 1 ∧ hs.name ≠ "" := by
  constructor
  · rfl
  · intro hs h
    fin_cases h <;>
      refine ⟨by norm_num, by norm_num, by norm_num, by norm_num,
        by norm_num, by norm_num, by norm_num, by decide⟩

/-- A 2D-canvas drawing instruction, as issued by `drawMap`:
a stretched background image draw, a filled arc (`arc` + `fill`), a
stroked arc (`arc` + `stroke`), or `fillText`. -/
inductive DrawOp where
  | image (w h : ℚ)
  | fillCircle (cx cy r : ℚ) (color : String)
  | strokeCircle (cx cy r : ℚ) (color : String)
  | text (msg : String) (tx ty : ℚ)
deriving DecidableEq

/-- The canvas: its pixel dimensions and the drawing operations issued
since the last `clearRect` (both handlers clear before painting, so the
visible pixel contents are determined by this list). -/
structure Canvas where
  width : ℚ
  height : ℚ
  content : List DrawOp
deriving DecidableEq

/-- The `canvasDimensions` state value. -/
structure Dimensions where
  width : ℚ
  height : ℚ
deriving DecidableEq

/-- The component state of `App`: the `mapLoaded` flag, the `deaths`
collection, the stored `canvasDimensions`, and the canvas itself. -/
structure AppState where
  mapLoaded : Bool
  deaths : List Death
  canvasDimensions : Dimensions
  canvas : Canvas
deriving DecidableEq

/-- Outcome of the asynchronous image load: `ok` carries the image's
natural width and height (the `onload` path), `error` is the `onerror`
path. -/
inductive ImageLoadResult where
  | ok (imgWidth imgHeight : ℚ)
  | error
deriving DecidableEq

/-- The filled circle drawn for one death sample
(`App.jsx` lines 95-101): center scaled per axis, radius 2, red. -/
def deathOp (scaleX scaleY : ℚ) (d : Death) : DrawOp :=
  DrawOp.fillCircle (d.x * scaleX) (d.y * scaleY) 2 "rgba(255, 0, 0, 0.5)"

/-- The outline circle drawn for one hotspot (`App.jsx` lines 104-110):
center scaled per axis, radius scaled by `scaleX` only, cyan. -/
def hotspotOp (scaleX scaleY : ℚ) (hs : Hotspot) : DrawOp :=
  DrawOp.strokeCircle (hs.x * scaleX) (hs.y * scaleY) (hs.radius * scaleX)
    "rgba(0, 255, 255, 0.3)"

/-- The fallback message painted by the `onerror` handler
(`App.jsx` line 119). -/
def failMessage : String := "Failed to load map image. Please check URL."

/-- `drawMap` (`App.jsx` lines 68-121), with the image-load outcome and
the container width as explicit inputs.  On `onload`: set `mapLoaded`,
resize the canvas to the container width at the image's aspect ratio,
store the dimensions, clear, draw the image, the scaled death points and
the hotspot outlines.  On `onerror`: clear the canvas at its current
dimensions and paint the fallback message; nothing else changes. -/
def drawMap (res : ImageLoadResult) (containerWidth : ℚ)
    (s : AppState) : AppState :=
  match res with
  | ImageLoadResult.ok imgWidth imgHeight =>
      let aspectRatio := imgWidth / imgHeight
      let newWidth := containerWidth
      let newHeight := containerWidth / aspectRatio
      let scaleX := newWidth / 800
      let scaleY := newHeight / 800
      { mapLoaded := true
        deaths := s.deaths
        canvasDimensions := ⟨newWidth, newHeight⟩
        canvas := ⟨newWidth, newHeight,
          DrawOp.image newWidth newHeight ::
            (s.deaths.map (deathOp scaleX scaleY) ++
              HOTSPOTS.map (hotspotOp scaleX scaleY))⟩ }
  | ImageLoadResult.error =>
      { s with canvas :=
          ⟨s.canvas.width, s.canvas.height, [DrawOp.text failMessage 10 50]⟩ }

/-- `handleResize` (`App.jsx` lines 125-130): redraw only when
`mapLoaded` is true. -/
def handleResize (res : ImageLoadResult) (containerWidth : ℚ)
    (s : AppState) : AppState :=
  if s.mapLoaded then drawMap res containerWidth s else s

/-- A state with nothing loaded and an empty canvas (used to instantiate
universally quantified theorems at a concrete input). -/
def emptyState : AppState := ⟨false, [], ⟨0, 0⟩, ⟨0, 0, []⟩⟩

/-- A state in which the map has already loaded successfully. -/
def loadedState : AppState := ⟨true, [], ⟨0, 0⟩, ⟨0, 0, []⟩⟩

/-- C7: `drawMap` is idempotent — rendering twice with the same
image-load outcome and container width yields the same state, hence a
pixel-identical surface. -/
theorem drawMap_idempotent (res : ImageLoadResult) (cw : ℚ)
    (s : AppState) : drawMap res cw (drawMap res cw s) = drawMap res cw s := by
  cases res <;> rfl

/-- C4: on a successful load, the canvas content consists of the
stretched image followed by one filled circle per death sample centered
at `(x * targetWidth / 800, y * targetHeight / 800)` (then the hotspot
outlines); at target 400×400 a sample at `(800,800)` renders at pixel
`(400,400)` and a sample at `(0,0)` renders at `(0,0)`. -/
theorem drawMap_death_scaling (w h cw : ℚ) (s : AppState) :
    ((drawMap (ImageLoadResult.ok w h) cw s).canvas.content =
      DrawOp.image cw (cw / (w / h)) ::
        (s.deaths.map (deathOp (cw / 800) ((cw / (w / h)) / 800)) ++
          HOTSPOTS.map (hotspotOp (cw / 800) ((cw / (w / h)) / 800)))) ∧
    (∀ d : Death, deathOp (cw / 800) ((cw / (w / h)) / 800) d =
      DrawOp.fillCircle (d.x * (cw / 800)) (d.y * ((cw / (w / h)) / 800))
        2 "rgba(255, 0, 0, 0.5)") ∧
    deathOp ((400 : ℚ) / 800) ((400 : ℚ) / 800) ⟨800, 800⟩ =
      DrawOp.fillCircle 400 400 2 "rgba(255, 0, 0, 0.5)" ∧
    deathOp ((400 : ℚ) / 800) ((400 : ℚ) / 800) ⟨0, 0⟩ =
      DrawOp.fillCircle 0 0 2 "rgba(255, 0, 0, 0.5)" := by
  refine ⟨rfl, fun d => rfl, ?_, ?_⟩ <;> simp only [deathOp] <;> norm_num

/-- C5: every hotspot's outline circle is drawn centered at
`(hotspot.x * scaleX, hotspot.y * scaleY)` with radius
`hotspot.radius * scaleX` — the horizontal scale factor is applied to
the radius even when `scaleX ≠ scaleY`. -/
theorem drawMap_hotspot_outline (w h cw : ℚ) (s : AppState)
    (hs : Hotspot) (hmem : hs ∈ HOTSPOTS) :
    DrawOp.strokeCircle (hs.x * (cw / 800)) (hs.y * ((cw / (w / h)) / 800))
        (hs.radius * (cw / 800)) "rgba(0, 255, 255, 0.3)"
      ∈ (drawMap (ImageLoadResult.ok w h) cw s).canvas.content := by
  simp only [drawMap, List.mem_cons, List.mem_append, List.mem_map]
  exact Or.inr (Or.inr ⟨hs, hmem, rfl⟩)

/-- Witness for C5 at the first hotspot with an image twice as wide as
it is tall (`scaleX = 1/2` while `scaleY = 1/4`). -/
theorem drawMap_hotspot_outline_witness :
    (⟨150, 700, 80, 4/10, "Edgeville Wilderness (Lvl 1-5)"⟩ : Hotspot) ∈ HOTSPOTS ∧
    DrawOp.strokeCircle ((150 : ℚ) * (400 / 800))
        ((700 : ℚ) * ((400 / ((800 : ℚ) / 400)) / 800))
        ((80 : ℚ) * (400 / 800)) "rgba(0, 255, 255, 0.3)"
      ∈ (drawMap (ImageLoadResult.ok 800 400) 400 emptyState).canvas.content :=
  ⟨List.mem_cons_self _ _,
    drawMap_hotspot_outline 800 400 400 emptyState _ (List.mem_cons_self _ _)⟩

/-- C3 counterexample: from a state in which the map had loaded
(`mapLoaded = true`), the failure path leaves `mapLoaded` at `true` — it
is not flipped to `false`. -/
theorem drawMap_error_mapLoaded_not_false :
    (drawMap ImageLoadResult.error 400 loadedState).mapLoaded ≠ false := by
  simp [drawMap, loadedState]

/-- C3 (amended): on image-load failure the renderer paints a non-empty
fallback message onto the surface at its current dimensions and does not
throw, but `mapLoaded` is left unchanged rather than being set to a
false/error state. -/
theorem drawMap_error_fallback (cw : ℚ) (s : AppState) :
    (drawMap ImageLoadResult.error cw s).canvas.content =
        [DrawOp.text failMessage 10 50] ∧
    failMessage ≠ "" ∧
    (drawMap ImageLoadResult.error cw s).canvas.width = s.canvas.width ∧
    (drawMap ImageLoadResult.error cw s).canvas.height = s.canvas.height ∧
    (drawMap ImageLoadResult.error cw s).mapLoaded = s.mapLoaded :=
  ⟨rfl, by decide, rfl, rfl, rfl⟩

/-- C8: the failure path changes only the surface's pixel contents —
the canvas dimensions, the stored `canvasDimensions` and the sample
collection are untouched, and only the fallback message is painted. -/
theorem drawMap_error_frame (cw : ℚ) (s : AppState) :
    (drawMap ImageLoadResult.error cw s).deaths = s.deaths ∧
    (drawMap ImageLoadResult.error cw s).canvas.width = s.canvas.width ∧
    (drawMap ImageLoadResult.error cw s).canvas.height = s.canvas.height ∧
    (drawMap ImageLoadResult.error cw s).canvasDimensions =
        s.canvasDimensions ∧
    (drawMap ImageLoadResult.error cw s).canvas.content =
        [DrawOp.text failMessage 10 50] :=
  ⟨rfl, rfl, rfl, rfl, rfl⟩

/-- C10: while `mapLoaded` is false a resize event is a no-op — the
handler invokes the render pipeline only when `mapLoaded` is true. -/
theorem handleResize_noop_when_not_loaded (res : ImageLoadResult)
    (cw : ℚ) (s : AppState) (h : s.mapLoaded = false) :
    handleResize res cw s = s := by
  simp [handleResize, h]

/-- Witness for C10 at a concrete not-yet-loaded state. -/
theorem handleResize_noop_when_not_loaded_witness :
    emptyState.mapLoaded = false ∧
    handleResize ImageLoadResult.error 400 emptyState = emptyState :=
  ⟨rfl, handleResize_noop_when_not_loaded ImageLoadResult.error 400 emptyState rfl⟩

/-- Pointwise agreement of two hotspot tables on every field except
`density`. -/
def agreeExceptDensity : List Hotspot → List Hotspot → Prop
  | [], [] => True
  | a :: t1, b :: t2 =>
      a.x = b.x ∧ a.y = b.y ∧ a.radius = b.radius ∧ a.name = b.name ∧
        agreeExceptDensity t1 t2
  | _, _ => False

/-- C6 helper: agreeing tables have equal length. -/
theorem agreeExceptDensity_length :
    ∀ t1 t2 : List Hotspot, agreeExceptDensity t1 t2 →
      t1.length = t2.length := by
  intro t1
  induction t1 with
  | nil => intro t2 h; cases t2 with
    | nil => rfl
    | cons b t2 => exact absurd h (by simp [agreeExceptDensity])
  | cons a t1 ih => intro t2 h; cases t2 with
    | nil => exact absurd h (by simp [agreeExceptDensity])
    | cons b t2 =>
        simp only [agreeExceptDensity] at h
        simp [ih t2 h.2.2.2.2]

/-- C6 helper: agreeing tables index to hotspots with the same
geometry. -/
theorem agreeExceptDensity_getD :
    ∀ t1 t2 : List Hotspot, agreeExceptDensity t1 t2 → ∀ i : ℕ,
      (t1.getD i defaultHotspot).x = (t2.getD i defaultHotspot).x ∧
      (t1.getD i defaultHotspot).y = (t2.getD i defaultHotspot).y ∧
      (t1.getD i defaultHotspot).radius =
        (t2.getD i defaultHotspot).radius := by
  intro t1
  induction t1 with
  | nil => intro t2 h i; cases t2 with
    | nil => exact ⟨rfl, rfl, rfl⟩
    | cons b t2 => exact absurd h (by simp [agreeExceptDensity])
  | cons a t1 ih =>
      intro t2 h i
      cases t2 with
      | nil => exact absurd h (by simp [agreeExceptDensity])
      | cons b t2 =>
          simp only [agreeExceptDensity] at h
          cases i with
          | zero => exact ⟨h.1, h.2.1, h.2.2.1⟩
          | succ i => exact ih t2 h.2.2.2.2 i

/-- C6 helper: one loop iteration never reads a hotspot's `density`. -/
theorem genOneWith_density_irrelevant (t1 t2 : List Hotspot)
    (hagree : agreeExceptDensity t1 t2) (M : MathPrims) (rand : ℕ → ℚ)
    (k : ℕ) : genOneWith t1 M rand k = genOneWith t2 M rand k := by
  have hlen := agreeExceptDensity_length t1 t2 hagree
  have hget := agreeExceptDensity_getD t1 t2 hagree
    ((⌊rand (k + 1) * (t1.length : ℚ)⌋).toNat)
  unfold genOneWith
  by_cases h8 : rand k < 8/10
  · simp only [if_pos h8, hlen, hget.1, hget.2.1, hget.2.2]
    rw [hlen] at hget
    rw [hget.1, hget.2.1, hget.2.2]
  · simp only [if_neg h8]

/-- C6 helper: the whole loop never reads a hotspot's `density`. -/
theorem genLoopWith_density_irrelevant (t1 t2 : List Hotspot)
    (hagree : agreeExceptDensity t1 t2) (M : MathPrims) (rand : ℕ → ℚ) :
    ∀ n k : ℕ, genLoopWith t1 M rand k n = genLoopWith t2 M rand k n := by
  intro n
  induction n with
  | zero => intro k; rfl
  | succ n ih =>
      intro k
      simp only [genLoopWith]
      rw [genOneWith_density_irrelevant t1 t2 hagree M rand k, ih]

/-- C6: the generator never consults the hotspots' `density` field — two
tables agreeing on every other field yield identical sample sequences
from the same random draws (selection among hotspots is uniform, not
weighted). -/
theorem generateDeathData_ignores_density (t1 t2 : List Hotspot)
    (hagree : agreeExceptDensity t1 t2) (M : MathPrims) (rand : ℕ → ℚ)
    (n : ℕ) :
    generateDeathDataWith t1 M rand n = generateDeathDataWith t2 M rand n ∧
    generateDeathData M rand n = generateDeathDataWith HOTSPOTS M rand n :=
  ⟨genLoopWith_density_irrelevant t1 t2 hagree M rand n 0, rfl⟩

/-- C2 helper: a draw in `[0,1)` scaled by a positive list length and
floored always indexes inside the list. -/
theorem floorIndex_lt (q : ℚ) (h0 : 0 ≤ q) (h1 : q < 1) (n : ℕ)
    (hn : 0 < n) : (⌊q * (n : ℚ)⌋).toNat < n := by
  have hlt : ⌊q * (n : ℚ)⌋ < (n : ℤ) := by
    apply Int.floor_lt.mpr
    push_cast
    calc q * (n : ℚ) < 1 * (n : ℚ) := by
          exact mul_lt_mul_of_pos_right h1 (by exact_mod_cast hn)
      _ = (n : ℚ) := one_mul _
  omega

/-- C2: per-sample structure of the generator.  The loop emits one
sample per iteration; with the branch draw `p = rand k`: if `p < 0.8`
the sample is the clamp of `hotspot.center + (r·cos θ, r·sin θ)` for the
uniformly indexed hotspot (the index `⌊u·5⌋` always lands inside the
table), `θ = u₂·2π` and `r = radius · sqrt u₃`; if `p ≥ 0.8` both
coordinates are independent uniform draws scaled to `[0, 800]`; both
coordinates are clamped into `[0, 800]`. -/
theorem generateDeathData_sampling_model (M : MathPrims) (rand : ℕ → ℚ)
    (n k : ℕ) (h0 : 0 ≤ rand (k + 1)) (h1 : rand (k + 1) < 1) :
    genLoopWith HOTSPOTS M rand k (n + 1) =
      genOneWith HOTSPOTS M rand k ::
        genLoopWith HOTSPOTS M rand (k + drawsUsed rand k) n ∧
    (⌊rand (k + 1) * (HOTSPOTS.length : ℚ)⌋).toNat < HOTSPOTS.length ∧
    (rand k < 8/10 →
      genOneWith HOTSPOTS M rand k =
        ⟨clampCoord 800
            ((HOTSPOTS.getD ((⌊rand (k + 1) * (HOTSPOTS.length : ℚ)⌋).toNat)
                defaultHotspot).x +
              (HOTSPOTS.getD ((⌊rand (k + 1) * (HOTSPOTS.length : ℚ)⌋).toNat)
                  defaultHotspot).radius * M.sqrt (rand (k + 3)) *
                M.cos (rand (k + 2) * 2 * M.pi)),
          clampCoord 800
            ((HOTSPOTS.getD ((⌊rand (k + 1) * (HOTSPOTS.length : ℚ)⌋).toNat)
                defaultHotspot).y +
              (HOTSPOTS.getD ((⌊rand (k + 1) * (HOTSPOTS.length : ℚ)⌋).toNat)
                  defaultHotspot).radius * M.sqrt (rand (k + 3)) *
                M.sin (rand (k + 2) * 2 * M.pi))⟩) ∧
    (8/10 ≤ rand k →
      genOneWith HOTSPOTS M rand k =
        ⟨clampCoord 800 (rand (k + 1) * 800),
          clampCoord 800 (rand (k + 2) * 800)⟩) := by
  refine ⟨rfl, floorIndex_lt (rand (k + 1)) h0 h1 HOTSPOTS.length (by decide),
    ?_, ?_⟩
  · intro h8
    simp only [genOneWith, if_pos h8]
  · intro h8
    simp only [genOneWith, if_neg (not_lt.mpr h8)]

/-- Concrete instantiation of the abstract `Math` primitives, for
evaluating the universally quantified theorems at a point. -/
def mathPrimsId : MathPrims := ⟨fun q => q, fun q => q, fun q => q, 314/100⟩

/-- A concrete random stream that always draws `1/2`. -/
def randHalf : ℕ → ℚ := fun _ => 1/2

/-- Witness for C2 at the constant stream `1/2` (hotspot branch,
index `⌊(1/2)·5⌋ = 2`). -/
theorem generateDeathData_sampling_model_witness :
    (0 ≤ randHalf 1 ∧ randHalf 1 < 1) ∧
    (genLoopWith HOTSPOTS mathPrimsId randHalf 0 1 =
      genOneWith HOTSPOTS mathPrimsId randHalf 0 ::
        genLoopWith HOTSPOTS mathPrimsId randHalf (0 + drawsUsed randHalf 0) 0 ∧
    (⌊randHalf 1 * (HOTSPOTS.length : ℚ)⌋).toNat < HOTSPOTS.length ∧
    (randHalf 0 < 8/10 →
      genOneWith HOTSPOTS mathPrimsId randHalf 0 =
        ⟨clampCoord 800
            ((HOTSPOTS.getD ((⌊randHalf 1 * (HOTSPOTS.length : ℚ)⌋).toNat)
                defaultHotspot).x +
              (HOTSPOTS.getD ((⌊randHalf 1 * (HOTSPOTS.length : ℚ)⌋).toNat)
                  defaultHotspot).radius * mathPrimsId.sqrt (randHalf 3) *
                mathPrimsId.cos (randHalf 2 * 2 * mathPrimsId.pi)),
          clampCoord 800
            ((HOTSPOTS.getD ((⌊randHalf 1 * (HOTSPOTS.length : ℚ)⌋).toNat)
                defaultHotspot).y +
              (HOTSPOTS.getD ((⌊randHalf 1 * (HOTSPOTS.length : ℚ)⌋).toNat)
                  defaultHotspot).radius * mathPrimsId.sqrt (randHalf 3) *
                mathPrimsId.sin (randHalf 2 * 2 * mathPrimsId.pi))⟩) ∧
    (8/10 ≤ randHalf 0 →
      genOneWith HOTSPOTS mathPrimsId randHalf 0 =
        ⟨clampCoord 800 (randHalf 1 * 800),
          clampCoord 800 (randHalf 2 * 800)⟩)) :=
  ⟨⟨by norm_num [randHalf], by norm_num [randHalf]⟩,
    generateDeathData_sampling_model mathPrimsId randHalf 0 0
      (by norm_num [randHalf]) (by norm_num [randHalf])⟩

/-- The hotspot table with every density replaced by `1/10` and all
other fields unchanged. -/
def hotspotsReweighted : List Hotspot :=
  [ ⟨150, 700, 80, 1/10, "Edgeville Wilderness (Lvl 1-5)"⟩,
    ⟨650, 150, 70, 1/10, "Chaos Altar / Temple"⟩,
    ⟨400, 400, 90, 1/10, "Revenant Caves Entrance"⟩,
    ⟨600, 550, 60, 1/10, "Wilderness Slayer/Lava Dragons"⟩,
    ⟨400, 100, 100, 1/10, "Deep Wilderness Bosses"⟩ ]

/-- Witness for C6: reweighting every hotspot leaves the generated
sequence unchanged. -/
theorem generateDeathData_ignores_density_witness :
    agreeExceptDensity HOTSPOTS hotspotsReweighted ∧
    (generateDeathDataWith HOTSPOTS mathPrimsId randHalf 2 =
        generateDeathDataWith hotspotsReweighted mathPrimsId randHalf 2 ∧
      generateDeathData mathPrimsId randHalf 2 =
        generateDeathDataWith HOTSPOTS mathPrimsId randHalf 2) :=
  ⟨by simp [agreeExceptDensity, HOTSPOTS, hotspotsReweighted],
    generateDeathData_ignores_density HOTSPOTS hotspotsReweighted
      (by simp [agreeExceptDensity, HOTSPOTS, hotspotsReweighted])
      mathPrimsId randHalf 2⟩
